import Mathlib

/-!
Verification of the store-and-forward message relay in
`src/server/routes.ts` (the socket.io relay with pending queues, a
deduplication cache, groups and a TTL sweeper).

The relay's runtime is single-threaded: every socket event handler and
every timer callback runs to completion before the next one starts.  We
therefore embed the relay as a deterministic step function on an explicit
state, driven by a list of events (socket events plus the two timer
callbacks `cleanupDeliveredIds` and `cleanupExpiredMessages`).

JavaScript `Map`s are embedded as insertion-ordered association lists
(`Map.set` updates an existing key in place, otherwise appends; iteration
follows insertion order, which matters for the `disconnect` handler's
first-match loop).  The JavaScript `Set` of delivered ids is an
insertion-ordered duplicate-free list.  `Date.now()` values are passed in
as the `now` field of each event that reads the clock.
-/

/-- `routes.ts` lines 5-13: a message queued for an offline recipient.
`groupId` and `content` are the optional fields of the TypeScript
interface (`undefined` is embedded as `none`). -/
structure PendingMessage where
  id : String
  sender : String
  «to» : String
  encrypted : String
  timestamp : Nat
  groupId : Option String
  content : Option String
deriving DecidableEq

/-- `routes.ts` lines 15-18. -/
structure GroupInfo where
  id : String
  members : List String
deriving DecidableEq

/-- JavaScript `Map.get`: the value stored at `k`, if any. -/
def mapGet {α : Type} (m : List (String × α)) (k : String) : Option α :=
  match m with
  | [] => none
  | (k', v) :: rest => if k' = k then some v else mapGet rest k

/-- JavaScript `Map.set`: update the entry for `k` in place if present
(keeping its insertion position), otherwise append a new entry. -/
def mapSet {α : Type} (m : List (String × α)) (k : String) (v : α) :
    List (String × α) :=
  match m with
  | [] => [(k, v)]
  | (k', v') :: rest => if k' = k then (k, v) :: rest else (k', v') :: mapSet rest k v

/-- JavaScript `Map.delete`. -/
def mapDelete {α : Type} (m : List (String × α)) (k : String) :
    List (String × α) :=
  match m with
  | [] => []
  | (k', v) :: rest => if k' = k then mapDelete rest k else (k', v) :: mapDelete rest k

/-- JavaScript `Set.add`: insert at the end if not already present. -/
def setAdd (s : List String) (x : String) : List String :=
  if x ∈ s then s else s ++ [x]

/-- `socket.join(room)`: socket.io room membership, a set of
(socketId, room) pairs in join order. -/
def roomJoin (rooms : List (String × String)) (sid gid : String) :
    List (String × String) :=
  if (sid, gid) ∈ rooms then rooms else rooms ++ [(sid, gid)]

/-- `socket.leave(room)`. -/
def roomLeave : List (String × String) → String → String → List (String × String)
  | [], _, _ => []
  | (s, g) :: rest, sid, gid =>
    if s = sid ∧ g = gid then roomLeave rest sid gid
    else (s, g) :: roomLeave rest sid gid

/-- socket.io removes a disconnected socket from every room it joined. -/
def roomLeaveAll : List (String × String) → String → List (String × String)
  | [], _ => []
  | (s, g) :: rest, sid =>
    if s = sid then roomLeaveAll rest sid else (s, g) :: roomLeaveAll rest sid

/-- The sockets currently joined to room `gid`, in join order
(the recipients of `io.to(gid).emit`). -/
def roomMembers : List (String × String) → String → List String
  | [], _ => []
  | (s, g) :: rest, gid =>
    if g = gid then s :: roomMembers rest gid else roomMembers rest gid

/-- `routes.ts` line 24: `MESSAGE_TTL = 24 * 60 * 60 * 1000`. -/
def MESSAGE_TTL : Nat := 24 * 60 * 60 * 1000

/-- The relay's module-level mutable state (`routes.ts` lines 20-23),
plus the socket.io room membership that the group handlers manipulate
through `socket.join` / `socket.leave`. -/
structure RelayState where
  connectedUsers : List (String × String)
  pendingMessages : List (String × List PendingMessage)
  groups : List (String × GroupInfo)
  deliveredMessageIds : List String
  rooms : List (String × String)
deriving DecidableEq

def initState : RelayState :=
  { connectedUsers := [], pendingMessages := [], groups := [],
    deliveredMessageIds := [], rooms := [] }

/-- A delivery performed by the relay: `socket.emit` / `io.to(...).emit`.
The three constructors are the three payload shapes the source emits:
a replayed pending message (`socket.emit("message", msg)`, line 111,
the whole record), a live direct message (lines 131-136), and a group
message (lines 103-109 replayed without an id, lines 196-203 and 222-229
live with one). -/
inductive Emit where
  | direct (socketId : String) (msg : PendingMessage)
  | directLive (socketId : String) (id sender encrypted : String) (timestamp : Nat)
  | group (socketId : String) (id : Option String) (groupId sender encrypted : String)
      (content : Option String) (timestamp : Nat)
deriving DecidableEq

/-- The events the relay reacts to.  `gen` is the value
`generateMessageId()` would return if called (the handler uses it only
when the caller supplied no id, or an empty one: `data.id || generate...`).
`now` is `Date.now()` at the moment the event is handled; the `register`
handler never reads the clock, but the field records the wall-clock
arrival time so that timing claims can be stated. -/
inductive Event where
  | register (userId : String) (userGroups : Option (List String))
      (socketId : String) (now : Nat)
  | message («to» sender encrypted : String) (id : Option String)
      (gen : String) (now : Nat) (socketId : String)
  | groupCreate (groupId : String) (members : List String) (socketId : String)
  | groupJoin (groupId userId socketId : String)
  | groupLeave (groupId userId socketId : String)
  | groupMessage (groupId sender encrypted content : String) (id : Option String)
      (gen : String) (now : Nat) (socketId : String)
  | disconnect (socketId : String)
  | sweepExpired (now : Nat)
  | cleanupDelivered
deriving DecidableEq

/-- `const messageId = data.id || generateMessageId()` — note `||`:
a missing id and an empty-string id both fall back to the generated one. -/
def resolveId (id : Option String) (gen : String) : String :=
  match id with
  | some s => if s = "" then gen else s
  | none => gen

/-- `routes.ts` lines 39-49, `cleanupExpiredMessages`: for every queue,
keep only messages with `now - timestamp < MESSAGE_TTL`; delete the map
entry when nothing survives.  (JS number subtraction can go negative for
future timestamps; both a negative value and truncated-to-zero `Nat`
subtraction compare `< MESSAGE_TTL` the same way, as `MESSAGE_TTL > 0`.) -/
def sweepMap : List (String × List PendingMessage) → Nat →
    List (String × List PendingMessage)
  | [], _ => []
  | (uid, msgs) :: rest, now =>
    let valid := msgs.filter (fun msg => now - msg.timestamp < MESSAGE_TTL)
    if valid.length = 0 then sweepMap rest now
    else (uid, valid) :: sweepMap rest now

/-- The `disconnect` handler (`routes.ts` lines 235-243): scan
`connectedUsers` in insertion order, delete the first entry whose stored
socket id equals the disconnecting socket, then `break`. -/
def removeFirstBySocket : List (String × String) → String → List (String × String)
  | [], _ => []
  | (u, s) :: rest, sid =>
    if s = sid then rest else (u, s) :: removeFirstBySocket rest sid

/-- One group-fan-out iteration (`routes.ts` lines 192-218): skip the
sender; deliver to a present member, otherwise enqueue a per-member
`PendingMessage` carrying `groupId` and `content`. -/
def fanOutStep (gid sender enc content messageId : String) (now : Nat)
    (acc : RelayState × List Emit) (memberId : String) : RelayState × List Emit :=
  if memberId = sender then acc
  else
    match mapGet acc.1.connectedUsers memberId with
    | some msid =>
      (acc.1, acc.2 ++ [Emit.group msid (some messageId) gid sender enc (some content) now])
    | none =>
      let pending := (mapGet acc.1.pendingMessages memberId).getD []
      let pending2 := pending ++ [⟨messageId, sender, memberId, enc, now, some gid, some content⟩]
      ({ acc.1 with pendingMessages := mapSet acc.1.pendingMessages memberId pending2 }, acc.2)

/-- One `register`-handler group-reconcile iteration (`routes.ts`
lines 85-95): join the socket.io room; add the user to the group's member
list if absent, creating the group when unknown. -/
def rejoinStep (userId sid : String) (st : RelayState) (gid : String) : RelayState :=
  let st' := { st with rooms := roomJoin st.rooms sid gid }
  match mapGet st'.groups gid with
  | some g =>
    if userId ∈ g.members then st'
    else { st' with groups := mapSet st'.groups gid ⟨g.id, g.members ++ [userId]⟩ }
  | none => { st' with groups := mapSet st'.groups gid ⟨gid, [userId]⟩ }

/-- The relay's event dispatcher: one socket event or timer callback,
returning the next state and the deliveries it emitted.  Each branch is a
direct transcription of the corresponding handler in `routes.ts`. -/
def step (s : RelayState) (ev : Event) : RelayState × List Emit :=
  match ev with
  | .register userId userGroups sid _ =>
    -- lines 77-117
    let s1 := { s with connectedUsers := mapSet s.connectedUsers userId sid }
    let s2 :=
      match userGroups with
      | some gs => if gs.length = 0 then s1 else gs.foldl (rejoinStep userId sid) s1
      | none => s1
    match mapGet s2.pendingMessages userId with
    | some pending =>
      if pending.length = 0 then (s2, [])
      else
        ({ s2 with pendingMessages := mapDelete s2.pendingMessages userId },
         pending.map (fun msg =>
           match msg.groupId with
           | some g =>
             -- `if (msg.groupId)`: the empty string is falsy in JS
             if g = "" then Emit.direct sid msg
             else Emit.group sid none g msg.sender msg.encrypted msg.content msg.timestamp
           | none => Emit.direct sid msg))
    | none => (s2, [])
  | .message «to» sender enc id gen now _ =>
    -- lines 119-151
    let messageId := resolveId id gen
    if messageId ∈ s.deliveredMessageIds then (s, [])
    else
      match mapGet s.connectedUsers «to» with
      | some target =>
        ({ s with deliveredMessageIds := setAdd s.deliveredMessageIds messageId },
         [Emit.directLive target messageId sender enc now])
      | none =>
        let pending := (mapGet s.pendingMessages «to»).getD []
        let pending2 := pending ++ [⟨messageId, sender, «to», enc, now, none, none⟩]
        ({ s with pendingMessages := mapSet s.pendingMessages «to» pending2 }, [])
  | .groupCreate gid members sid =>
    -- lines 153-157
    ({ s with groups := mapSet s.groups gid ⟨gid, members⟩,
              rooms := roomJoin s.rooms sid gid }, [])
  | .groupJoin gid uid sid =>
    -- lines 159-166
    let s' :=
      match mapGet s.groups gid with
      | some g =>
        if uid ∈ g.members then s
        else { s with groups := mapSet s.groups gid ⟨g.id, g.members ++ [uid]⟩ }
      | none => s
    ({ s' with rooms := roomJoin s'.rooms sid gid }, [])
  | .groupLeave gid uid sid =>
    -- lines 168-178
    let s' :=
      match mapGet s.groups gid with
      | some g =>
        let ms := g.members.filter (fun m => m ≠ uid)
        if ms.length = 0 then { s with groups := mapDelete s.groups gid }
        else { s with groups := mapSet s.groups gid ⟨g.id, ms⟩ }
      | none => s
    ({ s' with rooms := roomLeave s'.rooms sid gid }, [])
  | .groupMessage gid sender enc content id gen now _ =>
    -- lines 180-233
    let messageId := resolveId id gen
    if messageId ∈ s.deliveredMessageIds then (s, [])
    else
      match mapGet s.groups gid with
      | some g =>
        let acc := g.members.foldl (fanOutStep gid sender enc content messageId now) (s, [])
        ({ acc.1 with deliveredMessageIds := setAdd acc.1.deliveredMessageIds messageId },
         acc.2)
      | none =>
        -- unknown group: broadcast to the transport-level room
        ({ s with deliveredMessageIds := setAdd s.deliveredMessageIds messageId },
         (roomMembers s.rooms gid).map (fun rsid =>
           Emit.group rsid (some messageId) gid sender enc (some content) now))
  | .disconnect sid =>
    -- lines 235-243; socket.io itself drops the socket from its rooms
    ({ s with connectedUsers := removeFirstBySocket s.connectedUsers sid,
              rooms := roomLeaveAll s.rooms sid }, [])
  | .sweepExpired now =>
    -- lines 39-49 (hourly timer)
    ({ s with pendingMessages := sweepMap s.pendingMessages now }, [])
  | .cleanupDelivered =>
    -- lines 31-35 (hourly timer): full clear past the hard cap
    if 100000 < s.deliveredMessageIds.length
    then ({ s with deliveredMessageIds := [] }, [])
    else (s, [])

/-- Run a list of events, keeping only the final state. -/
def runS (s : RelayState) (evs : List Event) : RelayState :=
  evs.foldl (fun st e => (step st e).1) s

/-- Run a list of events, accumulating every delivery emitted along the way. -/
def runE (s : RelayState) : List Event → RelayState × List Emit
  | [] => (s, [])
  | e :: rest =>
    let (s1, es) := step s e
    let (s2, es') := runE s1 rest
    (s2, es ++ es')

/-!
JavaScript dynamic semantics of the `register` handler's payload access
(`routes.ts` lines 77-79).  The handler's parameter is untyped at runtime;
`typeof null` is `"object"`, and reading a property of `null` or
`undefined` throws a `TypeError` that propagates out of the socket.io
handler.
-/

/-- A JavaScript runtime value, as far as the register handler inspects it. -/
inductive JSValue where
  | vnull
  | vundefined
  | vstr (s : String)
  | vnum (n : Nat)
  | vobj (fields : List (String × JSValue))

/-- The runtime error a property access can throw. -/
inductive JSError where
  | typeError
deriving DecidableEq

/-- JavaScript `typeof`. -/
def typeofJS : JSValue → String
  | .vnull => "object"
  | .vundefined => "undefined"
  | .vstr _ => "string"
  | .vnum _ => "number"
  | .vobj _ => "object"

/-- JavaScript property access `value.key`: throws `TypeError` on `null`
and `undefined`, yields the field or `undefined` on an object, and
`undefined` on other primitives. -/
def getFieldJS : JSValue → String → Except JSError JSValue
  | .vnull, _ => .error .typeError
  | .vundefined, _ => .error .typeError
  | .vobj fields, k => .ok ((mapGet fields k).getD .vundefined)
  | .vstr _, _ => .ok .vundefined
  | .vnum _, _ => .ok .vundefined

/-- `routes.ts` lines 78-79, evaluated under JavaScript semantics:
`const userId = typeof data === "string" ? data : data.userId;`
`const userGroups = typeof data === "object" ? data.groups : undefined;`
Returns the two extracted values, or the runtime error the handler throws. -/
def registerHandlerJS (data : JSValue) : Except JSError (JSValue × JSValue) := do
  let userId ← if typeofJS data = "string" then pure data else getFieldJS data "userId"
  let userGroups ← if typeofJS data = "object" then getFieldJS data "groups"
                   else pure JSValue.vundefined
  pure (userId, userGroups)

/-!
A family of traces used to exhibit the growth of the deduplication cache:
`"bob"` registers once, then distinct-id messages are delivered to him.
`mkId i` is a string of `i+1` copies of `'a'`, so ids are pairwise
distinct and never empty.
-/

def mkId (i : Nat) : String := String.mk (List.replicate (i + 1) 'a')

def dedupMsgEv (i : Nat) : Event :=
  .message "bob" "alice" "ct" (some (mkId i)) "g" i "sA"

def dedupTrace (n : Nat) : List Event :=
  .register "bob" none "sB" 0 :: (List.range n).map dedupMsgEv

def dedupState (n : Nat) : RelayState := runS initState (dedupTrace n)

theorem runS_append (s : RelayState) (l l' : List Event) :
    runS s (l ++ l') = runS (runS s l) l' := by
  simp [runS, List.foldl_append]

theorem mkId_ne_empty (i : Nat) : mkId i ≠ "" := by
  intro h
  have hd : List.replicate (i + 1) 'a' = ([] : List Char) := congrArg String.data h
  simp at hd

theorem mkId_inj {i j : Nat} (h : mkId i = mkId j) : i = j := by
  have hd : List.replicate (i + 1) 'a' = List.replicate (j + 1) 'a' :=
    congrArg String.data h
  have hl := congrArg List.length hd
  simpa using hl

theorem mkId_not_mem_range (n : Nat) : mkId n ∉ (List.range n).map mkId := by
  intro h
  rcases List.mem_map.mp h with ⟨j, hj, hje⟩
  have : j = n := mkId_inj hje
  subst this
  exact absurd (List.mem_range.mp hj) (lt_irrefl j)

theorem dedupStep (n : Nat) :
    step ⟨[("bob", "sB")], [], [], (List.range n).map mkId, []⟩ (dedupMsgEv n) =
      (⟨[("bob", "sB")], [], [], (List.range (n + 1)).map mkId, []⟩,
       [Emit.directLive "sB" (mkId n) "alice" "ct" n]) := by
  simp [dedupMsgEv, step, resolveId, mkId_ne_empty n, mkId_not_mem_range n,
        mapGet, setAdd, List.range_succ]

theorem dedupState_eq (n : Nat) :
    dedupState n = ⟨[("bob", "sB")], [], [], (List.range n).map mkId, []⟩ := by
  induction n with
  | zero => decide
  | succ k ih =>
    have htr : dedupTrace (k + 1) = dedupTrace k ++ [dedupMsgEv k] := by
      simp [dedupTrace, List.range_succ]
    have : dedupState (k + 1) = runS (dedupState k) [dedupMsgEv k] := by
      rw [dedupState, htr, runS_append]
      rfl
    rw [this, ih]
    simp [runS, dedupStep k]

theorem mapGet_removeFirstBySocket (m : List (String × String)) (u h h' : String)
    (hm : mapGet m u = some h') (hne : h' ≠ h) :
    mapGet (removeFirstBySocket m h) u = some h' := by
  induction m with
  | nil => simp [mapGet] at hm
  | cons p rest ih =>
    obtain ⟨v, sv⟩ := p
    simp only [mapGet] at hm
    by_cases hsv : sv = h
    · rw [removeFirstBySocket, if_pos hsv]
      by_cases hvu : v = u
      · rw [if_pos hvu] at hm
        injection hm with hm'
        exact absurd (hm' ▸ hsv) hne
      · rw [if_neg hvu] at hm
        exact hm
    · rw [removeFirstBySocket, if_neg hsv]
      by_cases hvu : v = u
      · rw [if_pos hvu] at hm
        simp [mapGet, hvu, hm]
      · rw [if_neg hvu] at hm
        simp [mapGet, hvu, ih hm]

/-- C1 (counterexample): the dedup cache is written only on immediate
delivery.  With `"bob"` absent, two `message` events carrying the same id
`"m1"` are both enqueued: the second is not a no-op, and `"bob"`'s queue
ends up holding the duplicate twice. -/
theorem claim_C1_counterexample :
    mapGet (runS initState
        [.message "bob" "alice" "ct" (some "m1") "g" 0 "s1",
         .message "bob" "alice" "ct" (some "m1") "g" 1 "s2"]).pendingMessages "bob" =
      some [⟨"m1", "alice", "bob", "ct", 0, none, none⟩,
            ⟨"m1", "alice", "bob", "ct", 1, none, none⟩] := by
  decide

/-- C1 (amended): retry absorption holds only after a *delivered* first
event.  If the first `message` event with id `id` finds the recipient
present, it is delivered exactly once, the id is marked in the dedup
cache, and any later `message` event carrying the same id is a complete
no-op (same state, nothing emitted, nothing enqueued). -/
theorem claim_C1 (s : RelayState) (toU frm enc id gen sock tgt : String) (now : Nat)
    (hid : id ≠ "") (hpresent : mapGet s.connectedUsers toU = some tgt)
    (hfresh : id ∉ s.deliveredMessageIds) :
    (step s (.message toU frm enc (some id) gen now sock)).2 =
      [Emit.directLive tgt id frm enc now] ∧
    id ∈ (step s (.message toU frm enc (some id) gen now sock)).1.deliveredMessageIds ∧
    ∀ to2 frm2 enc2 gen2 sock2 now2,
      step (step s (.message toU frm enc (some id) gen now sock)).1
        (.message to2 frm2 enc2 (some id) gen2 now2 sock2) =
      ((step s (.message toU frm enc (some id) gen now sock)).1, []) := by
  have hstep : step s (.message toU frm enc (some id) gen now sock) =
      ({ s with deliveredMessageIds := setAdd s.deliveredMessageIds id },
       [Emit.directLive tgt id frm enc now]) := by
    simp [step, resolveId, hid, hfresh, hpresent]
  refine ⟨by rw [hstep], ?_, ?_⟩
  · rw [hstep]
    simp [setAdd, hfresh]
  · intro to2 frm2 enc2 gen2 sock2 now2
    rw [hstep]
    simp [step, resolveId, hid, setAdd, hfresh]

theorem claim_C1_witness :
    (step (runS initState [.register "bob" none "sB" 0])
        (.message "bob" "alice" "ct" (some "m1") "g" 1 "sA")).2 =
      [Emit.directLive "sB" "m1" "alice" "ct" 1] :=
  (claim_C1 (runS initState [.register "bob" none "sB" 0])
    "bob" "alice" "ct" "m1" "g" "sA" "sB" 1
    (by decide) (by decide) (by decide)).1

/-- C2: two messages enqueued for an absent recipient, in that order, are
drained on the recipient's registration as exactly `[m1, m2]` (FIFO by
arrival order at the relay), and the recipient's queue entry is gone
afterwards. -/
theorem claim_C2 (toU frm1 frm2 enc1 enc2 id1 id2 g1 g2 s1 s2 sockR : String)
    (t1 t2 nowR : Nat) (h1 : id1 ≠ "") (h2 : id2 ≠ "") :
    (step (runS initState
        [.message toU frm1 enc1 (some id1) g1 t1 s1,
         .message toU frm2 enc2 (some id2) g2 t2 s2])
      (.register toU none sockR nowR)).2 =
      [Emit.direct sockR ⟨id1, frm1, toU, enc1, t1, none, none⟩,
       Emit.direct sockR ⟨id2, frm2, toU, enc2, t2, none, none⟩] ∧
    mapGet (step (runS initState
        [.message toU frm1 enc1 (some id1) g1 t1 s1,
         .message toU frm2 enc2 (some id2) g2 t2 s2])
      (.register toU none sockR nowR)).1.pendingMessages toU = none := by
  simp [runS, step, resolveId, h1, h2, mapGet, mapSet, mapDelete, setAdd, initState]

theorem claim_C2_witness :
    (step (runS initState
        [.message "bob" "u1" "e1" (some "i1") "g" 0 "s1",
         .message "bob" "u2" "e2" (some "i2") "g" 1 "s2"])
      (.register "bob" none "sB" 2)).2 =
      [Emit.direct "sB" ⟨"i1", "u1", "bob", "e1", 0, none, none⟩,
       Emit.direct "sB" ⟨"i2", "u2", "bob", "e2", 1, none, none⟩] :=
  (claim_C2 "bob" "u1" "u2" "e1" "e2" "i1" "i2" "g" "g" "s1" "s2" "sB" 0 1 2
    (by decide) (by decide)).1

/-- C3: a message sent to absent `"bob"` is queued; if `"bob"` registers
before the TTL expires (even with a sweep in between), the register step
delivers exactly that one message — id, sender, encrypted payload and
timestamp intact — to the new handle, and `"bob"`'s queue entry is
removed from the map. -/
theorem claim_C3 (tMsg tSweep tReg : Nat) (sA sB gen : String)
    (hsweep : tSweep - tMsg < MESSAGE_TTL) (_hreg : tReg < tMsg + MESSAGE_TTL) :
    (step (runS initState
        [.register "alice" none sA 0,
         .message "bob" "alice" "ct1" (some "m1") gen tMsg sA,
         .sweepExpired tSweep])
      (.register "bob" none sB tReg)).2 =
      [Emit.direct sB ⟨"m1", "alice", "bob", "ct1", tMsg, none, none⟩] ∧
    mapGet (step (runS initState
        [.register "alice" none sA 0,
         .message "bob" "alice" "ct1" (some "m1") gen tMsg sA,
         .sweepExpired tSweep])
      (.register "bob" none sB tReg)).1.pendingMessages "bob" = none := by
  simp [runS, step, resolveId, sweepMap, hsweep, mapGet, mapSet, mapDelete,
        setAdd, initState]

theorem claim_C3_witness :
    (step (runS initState
        [.register "alice" none "sA" 0,
         .message "bob" "alice" "ct1" (some "m1") "g" 1 "sA",
         .sweepExpired 2])
      (.register "bob" none "sB" 3)).2 =
      [Emit.direct "sB" ⟨"m1", "alice", "bob", "ct1", 1, none, none⟩] :=
  (claim_C3 1 2 3 "sA" "sB" "g" (by decide) (by decide)).1

/-- C4: registering `u` first on handle `h1` and then on `h2` leaves the
presence entry `(u, h2)`; a stale disconnect of `h1` does not remove it.
In general, `removeFirstBySocket` never disturbs a user's entry whose
stored handle differs from the disconnecting one. -/
theorem claim_C4 :
    (∀ (u h1 h2 : String) (n1 n2 : Nat), h1 ≠ h2 →
      mapGet (runS initState
          [.register u none h1 n1, .register u none h2 n2,
           .disconnect h1]).connectedUsers u = some h2) ∧
    (∀ (m : List (String × String)) (u h h' : String),
      mapGet m u = some h' → h' ≠ h →
      mapGet (removeFirstBySocket m h) u = some h') := by
  constructor
  · intro u h1 h2 n1 n2 hne
    simp [runS, step, initState, mapGet, mapSet, removeFirstBySocket,
          roomLeaveAll, Ne.symm hne]
  · exact mapGet_removeFirstBySocket

theorem claim_C4_witness :
    mapGet (runS initState
        [.register "u" none "h1" 0, .register "u" none "h2" 1,
         .disconnect "h1"]).connectedUsers "u" = some "h2" :=
  claim_C4.1 "u" "h1" "h2" 0 1 (by decide)

/-- C5 (counterexample): the register-time replay never checks message
age.  A message enqueued at time 0 whose TTL (24h) has long expired is
still delivered when `"bob"` registers at time `MESSAGE_TTL + 1` —
i.e. after expiry but before any sweep has run. -/
theorem claim_C5_counterexample :
    (step (runS initState [.message "bob" "alice" "ct" (some "m1") "g" 0 "sA"])
        (.register "bob" none "sB" (MESSAGE_TTL + 1))).2 =
      [Emit.direct "sB" ⟨"m1", "alice", "bob", "ct", 0, none, none⟩] ∧
    0 + MESSAGE_TTL < MESSAGE_TTL + 1 := by
  constructor
  · decide
  · decide

/-- C5 (amended): a pending message is removed either by the recipient's
next registration (which delivers it regardless of age) or by the first
sweep running after its age reached the TTL; after such a sweep the
message is gone, the emptied queue entry is deleted from the map, and a
later registration delivers nothing. -/
theorem claim_C5 (ts now : Nat) (gen sB : String)
    (hexp : MESSAGE_TTL ≤ now - ts) :
    (step (runS initState [.message "bob" "alice" "ct" (some "m1") gen ts "sA"])
        (.sweepExpired now)).1.pendingMessages = [] ∧
    (step (step (runS initState
          [.message "bob" "alice" "ct" (some "m1") gen ts "sA"])
        (.sweepExpired now)).1
      (.register "bob" none sB (now + 1))).2 = [] := by
  have hlt : ¬(now - ts < MESSAGE_TTL) := not_lt.mpr hexp
  simp [runS, step, resolveId, sweepMap, mapGet, mapSet, initState, hlt]

theorem claim_C5_witness :
    (step (runS initState [.message "bob" "alice" "ct" (some "m1") "g" 0 "sA"])
        (.sweepExpired MESSAGE_TTL)).1.pendingMessages = [] :=
  (claim_C5 0 MESSAGE_TTL "g" "sB" (by decide)).1

/-- C6 (counterexample): inserts into the dedup cache perform no capacity
check.  After `"bob"` registers and 100001 distinct-id messages are
delivered to him, the cache holds 100001 > 100000 entries, and the next
fresh-id message still inserts (growing the cache to 100002) instead of
the cache having been cleared before that insert. -/
theorem claim_C6_counterexample :
    100000 < (dedupState 100001).deliveredMessageIds.length ∧
    (step (dedupState 100001) (dedupMsgEv 100001)).1.deliveredMessageIds.length =
      100002 := by
  constructor
  · rw [dedupState_eq]
    simp
  · rw [dedupState_eq, dedupStep]
    simp

/-- C6 (amended): the capacity policy lives only in the hourly
`cleanupDeliveredIds` task: when the cache exceeds 100000 entries it is
cleared in full (not an evict-oldest policy), otherwise left untouched.
The message handlers' inserts do no capacity check, so the cache grows
unboundedly (one entry per delivered fresh id) between cleanup runs. -/
theorem claim_C6 :
    (∀ s : RelayState, 100000 < s.deliveredMessageIds.length →
      (step s .cleanupDelivered).1.deliveredMessageIds = []) ∧
    (∀ s : RelayState, s.deliveredMessageIds.length ≤ 100000 →
      step s .cleanupDelivered = (s, [])) ∧
    (∀ n : Nat,
      (step (dedupState n) (dedupMsgEv n)).1.deliveredMessageIds.length = n + 1) := by
  refine ⟨?_, ?_, ?_⟩
  · intro s h
    simp [step, h]
  · intro s h
    simp [step, not_lt.mpr h]
  · intro n
    rw [dedupState_eq, dedupStep]
    simp

theorem claim_C6_witness :
    (step (dedupState 100001) Event.cleanupDelivered).1.deliveredMessageIds = [] :=
  claim_C6.1 (dedupState 100001) (by rw [dedupState_eq]; simp)

/-- C7: group fan-out for `G = {a, b, c}` with `a` sending a fresh-id
group message, `b` present and `c` absent: exactly one live delivery to
`b`'s handle, exactly one `PendingMessage` enqueued for `c` alone, and no
delivery attempt (neither emit nor queue entry) for the sender `a`. -/
theorem claim_C7 (a b c sA sB gen enc ct : String) (now : Nat)
    (hab : a ≠ b) (hac : a ≠ c) (hbc : b ≠ c) :
    (step (runS initState
        [.register a none sA 0, .register b none sB 0,
         .groupCreate "G" [a, b, c] sA])
      (.groupMessage "G" a enc ct (some "g1") gen now sA)).2 =
      [Emit.group sB (some "g1") "G" a enc (some ct) now] ∧
    mapGet (step (runS initState
        [.register a none sA 0, .register b none sB 0,
         .groupCreate "G" [a, b, c] sA])
      (.groupMessage "G" a enc ct (some "g1") gen now sA)).1.pendingMessages c =
      some [⟨"g1", a, c, enc, now, some "G", some ct⟩] ∧
    mapGet (step (runS initState
        [.register a none sA 0, .register b none sB 0,
         .groupCreate "G" [a, b, c] sA])
      (.groupMessage "G" a enc ct (some "g1") gen now sA)).1.pendingMessages a =
      none ∧
    mapGet (step (runS initState
        [.register a none sA 0, .register b none sB 0,
         .groupCreate "G" [a, b, c] sA])
      (.groupMessage "G" a enc ct (some "g1") gen now sA)).1.pendingMessages b =
      none := by
  simp [runS, step, fanOutStep, resolveId, mapGet, mapSet, setAdd, roomJoin,
        initState, hab, hac, hbc, Ne.symm hab, Ne.symm hac, Ne.symm hbc]

theorem claim_C7_witness :
    (step (runS initState
        [.register "A" none "sA" 0, .register "B" none "sB" 0,
         .groupCreate "G" ["A", "B", "C"] "sA"])
      (.groupMessage "G" "A" "e" "c" (some "g1") "g" 3 "sA")).2 =
      [Emit.group "sB" (some "g1") "G" "A" "e" (some "c") 3] :=
  (claim_C7 "A" "B" "C" "sA" "sB" "g" "e" "c" 3
    (by decide) (by decide) (by decide)).1

/-- C8: after `group:leave` events empty the group `{A, B}` (each member
leaving from its own socket), the group is deleted (`Members` lookup is
`none`), and a further group message to it delivers nothing and enqueues
nothing: the unknown-group room broadcast reaches an empty room, the only
state change being the dedup-cache mark of the message id. -/
theorem claim_C8 :
    mapGet (runS initState
        [.groupCreate "G" ["A", "B"] "sA", .groupJoin "G" "B" "sB",
         .groupLeave "G" "A" "sA", .groupLeave "G" "B" "sB"]).groups "G" = none ∧
    step (runS initState
        [.groupCreate "G" ["A", "B"] "sA", .groupJoin "G" "B" "sB",
         .groupLeave "G" "A" "sA", .groupLeave "G" "B" "sB"])
      (.groupMessage "G" "A" "ct" "c" (some "m9") "g" 5 "sA") =
      ({ runS initState
          [.groupCreate "G" ["A", "B"] "sA", .groupJoin "G" "B" "sB",
           .groupLeave "G" "A" "sA", .groupLeave "G" "B" "sB"] with
        deliveredMessageIds := ["m9"] }, []) := by
  constructor
  · decide
  · decide

/-- C9: the claim that malformed payloads never crash a handler is right
as a requirement but wrong about the code: for a `register` event whose
payload is `null`, `typeof null` is `"object"`, so the handler evaluates
`data.userId` on `null` and throws a `TypeError` instead of dropping the
event.  A well-formed string payload, by contrast, is processed fine. -/
theorem claim_C9_bug :
    registerHandlerJS JSValue.vnull = Except.error JSError.typeError ∧
    registerHandlerJS (JSValue.vstr "alice") =
      Except.ok (JSValue.vstr "alice", JSValue.vundefined) := by
  exact ⟨rfl, rfl⟩

/-- C10: one socket `"s1"` registers two userIds; on disconnect the
handler deletes only the first matching presence entry and breaks, so
`"bob"` stays registered against the dead handle `"s1"` while `"alice"`
is removed. -/
theorem claim_C10 :
    mapGet (runS initState
        [.register "alice" none "s1" 0, .register "bob" none "s1" 1,
         .disconnect "s1"]).connectedUsers "alice" = none ∧
    mapGet (runS initState
        [.register "alice" none "s1" 0, .register "bob" none "s1" 1,
         .disconnect "s1"]).connectedUsers "bob" = some "s1" := by
  constructor
  · decide
  · decide
